import Mathlib

/-!
Verification development for the flintrock SSH core
(src/flintrock/ssh.py and src/flintrock/util.py).

The Python source is shallowly embedded: each function is translated into
an executable Lean definition over explicit data describing the remote
side (attempt outcomes, captured streams, exit status, durations), and
the claims of the specification are settled as theorems about those
definitions.
-/

set_option autoImplicit false

namespace Flintrock

/-! ### Captured-stream normalization

Python `s.rstrip(chr(10))` removes every trailing newline character from
`s`.  Both executors apply it to the captured stdout and stderr texts
(ssh.py lines 139-140 and 163-164). -/

/-- Embedding of Python `rstrip` with the newline character: drop every
trailing newline character of the string. -/
def rstripNl (s : String) : String :=
  String.mk ((s.data.reverse.dropWhile (fun c => c == '\n')).reverse)

example : rstripNl "hi" = "hi" := by decide
example : rstripNl "" = "" := by decide

/-! ### Command executor

`ssh_run` (ssh.py lines 119-148, asyncssh path) and `ssh_check_output`
(ssh.py lines 151-174, paramiko path).  The remote side of one command
execution is described by a `RemoteExec` record: how long the command
session takes to open, how long the command then takes to complete, the
raw texts captured from the two output streams, and the exit status. -/

/-- Embedding of the keyword arguments of `ssh_run`: command text,
optional input payload, optional timeout in seconds, and the `check`
flag (source default `True`). -/
structure CommandRequest where
  command : String
  input : Option String
  timeout : Option Nat
  check : Bool
deriving DecidableEq, Repr

/-- Description of the remote side of one command execution. -/
structure RemoteExec where
  /-- Time for `client.open_session` / `client.exec_command` to complete. -/
  openDuration : Nat
  /-- Time until the remote command completes and both streams close. -/
  runDuration : Nat
  /-- Raw text the remote process emits on standard output. -/
  rawStdout : String
  /-- Raw text the remote process emits on standard error. -/
  rawStderr : String
  /-- Exit status of the remote command. -/
  exitStatus : Nat
deriving DecidableEq, Repr

/-- The I/O steps a single command execution performs, in order. -/
inductive Event where
  | openSession
  | writeInput
  | writeEof
  | readStdout
  | readStderr
  | queryExitStatus
deriving DecidableEq, Repr

/-- Result of one command execution: the value `ssh_run` returns is only
the captured stdout text (the source has a TODO about returning a class
with stdout, stderr and returncode); `sshError` embeds a raised
`SSHError` with its message; `timedOut` embeds a raised
`asyncio.TimeoutError`. -/
inductive RunResult where
  | ok (stdout : String)
  | sshError (msg : String)
  | timedOut
deriving DecidableEq, Repr

/-- Embedding of `asyncio.wait_for(fut, timeout=t)`: with `t = None` the
future is awaited without bound; otherwise a duration exceeding `t`
raises `asyncio.TimeoutError`. -/
def withinTimeout : Option Nat → Nat → Bool
  | none, _ => true
  | some t, d => decide (d ≤ t)

/-- The steps `ssh_run` performs after the session is open, in source
order (ssh.py lines 135-141): optional input write and end-of-input,
then both streams read to end-of-stream, then the exit-status query. -/
def inputEvents : Option String → List Event
  | some _ => [Event.writeInput, Event.writeEof]
  | none => []

/-- Embedding of `ssh_run` (ssh.py lines 119-148).  `asyncio.wait_for`
is applied to `client.open_session` only, with the request timeout; the
stream reads that follow are unbounded.  Captured texts are normalized
with `rstripNl`; with `check` set and a non-zero exit status an
`SSHError` carrying the normalized stderr text is raised; otherwise the
normalized stdout text alone is returned.  The second component records
the I/O steps performed, in order. -/
def ssh_run (req : CommandRequest) (r : RemoteExec) : RunResult × List Event :=
  if withinTimeout req.timeout r.openDuration then
    let trace := Event.openSession :: inputEvents req.input ++
      [Event.readStdout, Event.readStderr, Event.queryExitStatus]
    let stdout_output := rstripNl r.rawStdout
    let stderr_output := rstripNl r.rawStderr
    if req.check && (r.exitStatus != 0) then
      (RunResult.sshError stderr_output, trace)
    else
      (RunResult.ok stdout_output, trace)
  else
    (RunResult.timedOut, [])

/-- Embedding of `ssh_check_output` (ssh.py lines 151-174, paramiko
path): no timeout and no input payload; both streams are read before
`recv_exit_status`; on a non-zero status an `SSHError` carrying the
concatenation of the two normalized captured texts is raised. -/
def ssh_check_output (r : RemoteExec) : RunResult × List Event :=
  let trace := [Event.openSession, Event.readStdout, Event.readStderr,
    Event.queryExitStatus]
  let stdout_output := rstripNl r.rawStdout
  let stderr_output := rstripNl r.rawStderr
  if r.exitStatus != 0 then
    (RunResult.sshError (stdout_output ++ stderr_output), trace)
  else
    (RunResult.ok stdout_output, trace)

example :
    (ssh_run ⟨"true", none, none, true⟩ ⟨1, 1, "a", "b", 0⟩).1 =
      RunResult.ok "a" := by decide

example :
    (ssh_run ⟨"false", none, none, true⟩ ⟨1, 1, "a", "b", 2⟩).1 =
      RunResult.sshError "b" := by decide

example :
    (ssh_run ⟨"false", none, some 3, true⟩ ⟨9, 1, "a", "b", 2⟩).1 =
      RunResult.timedOut := by decide

example :
    (ssh_check_output ⟨1, 1, "a", "b", 2⟩).1 = RunResult.sshError "ab" := by
  decide

/-! ### Connection establishers

`gimmeh_ssh_client` (ssh.py lines 41-71, asyncssh path) and
`get_ssh_client` (ssh.py lines 74-116, paramiko path).  Each loop
iteration performs one connection attempt; an attempt is described by
how long the connect call takes, the state of the server host key
relative to the known-host store, and the underlying outcome of the
connect once any host-key handling is passed. -/

/-- Per-attempt connect timeout: both paths bound one attempt by
`timeout=3` (ssh.py lines 59 and 99). -/
def connectTimeout : Nat := 3

/-- Fixed backoff slept after a transient attempt: `sleep(5)`
(ssh.py lines 67, 69, 106, 110, 114). -/
def backoffInterval : Nat := 5

/-- Errno of `ECONNREFUSED` on Linux, the value `errno.ECONNREFUSED`
compared against in both loops (ssh.py lines 64 and 108). -/
def ECONNREFUSED : Nat := 111

/-- State of the server host key relative to the local known-host
store. -/
inductive HostKey where
  | matching
  | missing
  | mismatching
deriving DecidableEq, Repr

/-- Underlying outcome of one connect call, before timeout bounding and
host-key handling are applied. -/
inductive ConnOutcome where
  | accepted
  | sockErr (errno : Nat)
  | authRejected
  | otherErr
deriving DecidableEq, Repr

/-- Outcome of one bounded connect attempt as the establisher loop sees
it. -/
inductive ConnectResult where
  | accepted
  | timedOut
  | sockErr (errno : Nat)
  | authRejected
  | otherErr
  | hostKeyErr
deriving DecidableEq, Repr

/-- One connection attempt against the remote host. -/
structure Attempt where
  duration : Nat
  hostKey : HostKey
  outcome : ConnOutcome
deriving DecidableEq, Repr

/-- Lift an underlying connect outcome into an attempt result. -/
def embedOutcome : ConnOutcome → ConnectResult
  | ConnOutcome.accepted => ConnectResult.accepted
  | ConnOutcome.sockErr e => ConnectResult.sockErr e
  | ConnOutcome.authRejected => ConnectResult.authRejected
  | ConnOutcome.otherErr => ConnectResult.otherErr

/-- Embedding of `asyncio.wait_for(asyncssh.connect(...), timeout=3)`
with the `known_hosts` argument made explicit: the source passes
`known_hosts=None` (ssh.py line 57), which disables host-key
verification entirely, so with `verifyHostKeys = false` the host-key
state of the attempt is never consulted. -/
def asyncssh_connect (verifyHostKeys : Bool) (a : Attempt) : ConnectResult :=
  if connectTimeout < a.duration then ConnectResult.timedOut
  else if verifyHostKeys && (a.hostKey != HostKey.matching) then
    ConnectResult.hostKeyErr
  else embedOutcome a.outcome

/-- Embedding of `paramiko client.connect(..., timeout=3)` after
`load_system_host_keys()` and `set_missing_host_key_policy(AutoAddPolicy())`
(ssh.py lines 89-99): a missing-host-key policy applies only to keys
absent from the store, so with `autoAddMissing = true` a missing key is
accepted, while a key that mismatches a stored key raises
`BadHostKeyException` regardless of the policy. -/
def paramiko_connect (autoAddMissing : Bool) (a : Attempt) : ConnectResult :=
  if connectTimeout < a.duration then ConnectResult.timedOut
  else
    match a.hostKey with
    | HostKey.matching => embedOutcome a.outcome
    | HostKey.missing =>
        if autoAddMissing then embedOutcome a.outcome
        else ConnectResult.hostKeyErr
    | HostKey.mismatching => ConnectResult.hostKeyErr

/-- Result of running an establisher loop against a finite list of
attempt descriptions: connected, raised with the fatal attempt result,
or still pending (every listed attempt was consumed by a transient
retry).  The `Nat` records the total backoff time slept. -/
inductive EstablishResult where
  | connected (slept : Nat)
  | raised (e : ConnectResult) (slept : Nat)
  | pending (slept : Nat)
deriving DecidableEq, Repr

/-- Account the backoff sleep performed before a retry. -/
def addSleep (n : Nat) : EstablishResult → EstablishResult
  | EstablishResult.connected s => EstablishResult.connected (n + s)
  | EstablishResult.raised e s => EstablishResult.raised e (n + s)
  | EstablishResult.pending s => EstablishResult.pending (n + s)

/-- Embedding of the retry loop of `gimmeh_ssh_client` (ssh.py lines
51-71): a refused attempt (`socket.error` with errno `ECONNREFUSED`) or
a timed-out attempt sleeps the backoff and retries; a `socket.error`
with any other errno is re-raised; every other exception — including an
authentication rejection, which this loop does not catch — propagates
immediately. -/
def gimmeh_ssh_client : List Attempt → EstablishResult
  | [] => EstablishResult.pending 0
  | a :: rest =>
    match asyncssh_connect false a with
    | ConnectResult.accepted => EstablishResult.connected 0
    | ConnectResult.timedOut =>
        addSleep backoffInterval (gimmeh_ssh_client rest)
    | ConnectResult.sockErr e =>
        if e = ECONNREFUSED then
          addSleep backoffInterval (gimmeh_ssh_client rest)
        else EstablishResult.raised (ConnectResult.sockErr e) 0
    | ConnectResult.authRejected =>
        EstablishResult.raised ConnectResult.authRejected 0
    | ConnectResult.otherErr =>
        EstablishResult.raised ConnectResult.otherErr 0
    | ConnectResult.hostKeyErr =>
        EstablishResult.raised ConnectResult.hostKeyErr 0

/-- Embedding of the retry loop of `get_ssh_client` (ssh.py lines
92-116): `socket.timeout` sleeps and retries; `socket.error` with errno
`ECONNREFUSED` sleeps and retries while any other errno is re-raised;
`AuthenticationException` sleeps and retries; every other exception
propagates immediately. -/
def get_ssh_client : List Attempt → EstablishResult
  | [] => EstablishResult.pending 0
  | a :: rest =>
    match paramiko_connect true a with
    | ConnectResult.accepted => EstablishResult.connected 0
    | ConnectResult.timedOut =>
        addSleep backoffInterval (get_ssh_client rest)
    | ConnectResult.sockErr e =>
        if e = ECONNREFUSED then
          addSleep backoffInterval (get_ssh_client rest)
        else EstablishResult.raised (ConnectResult.sockErr e) 0
    | ConnectResult.authRejected =>
        addSleep backoffInterval (get_ssh_client rest)
    | ConnectResult.otherErr =>
        EstablishResult.raised ConnectResult.otherErr 0
    | ConnectResult.hostKeyErr =>
        EstablishResult.raised ConnectResult.hostKeyErr 0

example :
    gimmeh_ssh_client
      [⟨9, HostKey.matching, ConnOutcome.accepted⟩,
       ⟨1, HostKey.matching, ConnOutcome.sockErr 111⟩,
       ⟨1, HostKey.matching, ConnOutcome.accepted⟩] =
    EstablishResult.connected 10 := by decide

example :
    gimmeh_ssh_client [⟨1, HostKey.matching, ConnOutcome.authRejected⟩] =
    EstablishResult.raised ConnectResult.authRejected 0 := by decide

example :
    get_ssh_client
      [⟨1, HostKey.matching, ConnOutcome.authRejected⟩,
       ⟨1, HostKey.missing, ConnOutcome.accepted⟩] =
    EstablishResult.connected 5 := by decide

example :
    get_ssh_client [⟨1, HostKey.mismatching, ConnOutcome.accepted⟩] =
    EstablishResult.raised ConnectResult.hostKeyErr 0 := by decide

/-! ### Fleet dispatcher

`run_asynchronously` (util.py lines 27-53).  One task is scheduled per
host with `asyncio.ensure_future`; the dispatcher then runs
`loop.run_until_complete(asyncio.gather(*tasks))`.  `gather` without
`return_exceptions` completes as soon as every task has succeeded, or —
immediately — when the first task raises; in the latter case the other
tasks keep running and are abandoned when the `finally` block closes the
loop.  The `except SSHError` clause converts only an `SSHError` into
`NodeError(str(e))`. -/

/-- Modelled from the spec: the error classes a per-host task can
terminate with.  The missing module `flintrock.exceptions` (not under
src/) defines `SSHError` — the command error the executor raises (the
spec's `CommandError`) — and `NodeError`, the aggregated fleet error
(the spec's `FleetError`); per the spec's error taxonomy these are
distinct from the standard-library connection and timeout errors, so an
`except SSHError` clause catches none of the latter, and `str` of an
`SSHError` is its message. -/
inductive TaskError where
  | sshError (msg : String)
  | connError (errno : Nat)
  | timeoutError
  | otherError (msg : String)
deriving DecidableEq, Repr

/-- One per-host task of a fleet run: how long it runs on the event loop
before reaching a terminal state, and the error it terminates with, if
any (`none` means the task succeeds). -/
structure HostTask where
  duration : Nat
  result : Option TaskError
deriving DecidableEq, Repr

/-- The failing task `asyncio.gather` observes first: the failing task
with the smallest duration, the earlier listed one on a tie (tasks that
become ready at the same loop time run in creation order).  Returns the
failure time together with the task error, or `none` when every task
succeeds. -/
def firstFailure? : List HostTask → Option (Nat × TaskError)
  | [] => none
  | t :: ts =>
    match t.result with
    | none => firstFailure? ts
    | some e =>
      match firstFailure? ts with
      | none => some (t.duration, e)
      | some (d, e2) =>
          if d < t.duration then some (d, e2) else some (t.duration, e)

/-- Time at which every task of the list has reached a terminal state. -/
def maxDuration : List HostTask → Nat
  | [] => 0
  | t :: ts => max t.duration (maxDuration ts)

/-- What the dispatcher call produces: a normal return, a raised
`NodeError` wrapping an `SSHError` message, or some other exception
propagated unchanged through the absent handlers. -/
inductive DispatchResult where
  | ok
  | nodeError (msg : String)
  | uncaught (e : TaskError)
deriving DecidableEq, Repr

/-- Embedding of `run_asynchronously` (util.py lines 27-53): if no task
fails, `gather` completes and the call returns; otherwise the first
observed task error is raised by `gather`, and only an `SSHError` is
converted to `NodeError(str(e))` — any other exception propagates
unchanged. -/
def run_asynchronously (ts : List HostTask) : DispatchResult :=
  match firstFailure? ts with
  | none => DispatchResult.ok
  | some (_, TaskError.sshError m) => DispatchResult.nodeError m
  | some (_, e) => DispatchResult.uncaught e

/-- Loop time at which `run_until_complete` finishes: the first failure
time when some task fails (gather raises immediately), otherwise the
time at which every task has completed. -/
def finishTime (ts : List HostTask) : Nat :=
  match firstFailure? ts with
  | none => maxDuration ts
  | some (d, _) => d

/-- The tasks still running when the dispatcher returns or raises: those
whose duration extends past the dispatcher finish time.  They are
abandoned by `loop.close()` in the `finally` block. -/
def pendingAfter (ts : List HostTask) : List HostTask :=
  ts.filter (fun t => decide (finishTime ts < t.duration))

example : run_asynchronously [⟨1, none⟩, ⟨2, none⟩] = DispatchResult.ok := by
  decide

example :
    run_asynchronously [⟨4, none⟩, ⟨2, some (TaskError.sshError "boom")⟩] =
    DispatchResult.nodeError "boom" := by decide

example :
    run_asynchronously [⟨4, none⟩, ⟨2, some TaskError.timeoutError⟩] =
    DispatchResult.uncaught TaskError.timeoutError := by decide

example :
    pendingAfter [⟨4, none⟩, ⟨2, some (TaskError.sshError "boom")⟩] =
    [⟨4, none⟩] := by decide

/-! ### Helper lemmas -/

lemma addSleep_zero (x : EstablishResult) : addSleep 0 x = x := by
  cases x <;> simp [addSleep]

lemma addSleep_addSleep (n m : Nat) (x : EstablishResult) :
    addSleep n (addSleep m x) = addSleep (n + m) x := by
  cases x <;> simp [addSleep, Nat.add_assoc]

lemma addSleep_ne_raised (n : Nat) (x : EstablishResult) (e : ConnectResult)
    (h : ∀ s2, x ≠ EstablishResult.raised e s2) :
    ∀ s, addSleep n x ≠ EstablishResult.raised e s := by
  cases x with
  | connected s0 => intro s; simp [addSleep]
  | raised e0 s0 =>
      intro s hcontra
      simp only [addSleep] at hcontra
      cases hcontra
      exact h s0 rfl
  | pending s0 => intro s; simp [addSleep]

/-- An attempt is transient for the asyncssh loop when it times out or
is actively refused. -/
def gimmehTransient (a : Attempt) : Prop :=
  asyncssh_connect false a = ConnectResult.timedOut ∨
  asyncssh_connect false a = ConnectResult.sockErr ECONNREFUSED

instance (a : Attempt) : Decidable (gimmehTransient a) := by
  unfold gimmehTransient; infer_instance

/-- An attempt is transient for the paramiko loop when it times out, is
actively refused, or is rejected for authentication. -/
def paramikoTransient (a : Attempt) : Prop :=
  paramiko_connect true a = ConnectResult.timedOut ∨
  paramiko_connect true a = ConnectResult.sockErr ECONNREFUSED ∨
  paramiko_connect true a = ConnectResult.authRejected

instance (a : Attempt) : Decidable (paramikoTransient a) := by
  unfold paramikoTransient; infer_instance

/-- An attempt that times out or is actively refused, for the paramiko
loop (the transient classes shared with the asyncssh loop). -/
def paramikoRefused (a : Attempt) : Prop :=
  paramiko_connect true a = ConnectResult.timedOut ∨
  paramiko_connect true a = ConnectResult.sockErr ECONNREFUSED

instance (a : Attempt) : Decidable (paramikoRefused a) := by
  unfold paramikoRefused; infer_instance

lemma gimmeh_append_transient (pre rest : List Attempt)
    (h : ∀ b ∈ pre, gimmehTransient b) :
    gimmeh_ssh_client (pre ++ rest) =
      addSleep (backoffInterval * pre.length) (gimmeh_ssh_client rest) := by
  induction pre with
  | nil => simp [addSleep_zero]
  | cons a pre ih =>
      have ha := h a (List.mem_cons_self a pre)
      have hpre : ∀ b ∈ pre, gimmehTransient b :=
        fun b hb => h b (List.mem_cons_of_mem a hb)
      have hrec := ih hpre
      rcases ha with ha | ha <;>
        · show gimmeh_ssh_client (a :: (pre ++ rest)) = _
          simp only [gimmeh_ssh_client, ha, if_pos rfl, if_true]
          rw [hrec, addSleep_addSleep, List.length_cons, Nat.mul_succ,
            Nat.add_comm backoffInterval (backoffInterval * pre.length)]

lemma get_ssh_client_append_transient (pre rest : List Attempt)
    (h : ∀ b ∈ pre, paramikoTransient b) :
    get_ssh_client (pre ++ rest) =
      addSleep (backoffInterval * pre.length) (get_ssh_client rest) := by
  induction pre with
  | nil => simp [addSleep_zero]
  | cons a pre ih =>
      have ha := h a (List.mem_cons_self a pre)
      have hpre : ∀ b ∈ pre, paramikoTransient b :=
        fun b hb => h b (List.mem_cons_of_mem a hb)
      have hrec := ih hpre
      rcases ha with ha | ha | ha <;>
        · show get_ssh_client (a :: (pre ++ rest)) = _
          simp only [get_ssh_client, ha, if_pos rfl, if_true]
          rw [hrec, addSleep_addSleep, List.length_cons, Nat.mul_succ,
            Nat.add_comm backoffInterval (backoffInterval * pre.length)]

lemma gimmeh_cons_accepted (a : Attempt) (rest : List Attempt)
    (h : asyncssh_connect false a = ConnectResult.accepted) :
    gimmeh_ssh_client (a :: rest) = EstablishResult.connected 0 := by
  simp only [gimmeh_ssh_client, h]

lemma get_ssh_client_cons_accepted (a : Attempt) (rest : List Attempt)
    (h : paramiko_connect true a = ConnectResult.accepted) :
    get_ssh_client (a :: rest) = EstablishResult.connected 0 := by
  simp only [get_ssh_client, h]

lemma asyncssh_connect_false_ne_hostKeyErr (a : Attempt) :
    asyncssh_connect false a ≠ ConnectResult.hostKeyErr := by
  unfold asyncssh_connect
  split
  · simp
  · simp only [Bool.false_and, Bool.false_eq_true, if_neg]
    cases a.outcome <;> simp [embedOutcome]

lemma paramiko_connect_ne_hostKeyErr (a : Attempt)
    (h : a.hostKey ≠ HostKey.mismatching) :
    paramiko_connect true a ≠ ConnectResult.hostKeyErr := by
  unfold paramiko_connect
  split
  · simp
  · cases hk : a.hostKey with
    | matching => cases a.outcome <;> simp [embedOutcome]
    | missing => cases a.outcome <;> simp [embedOutcome]
    | mismatching => exact absurd hk h

lemma firstFailure?_eq_none (ts : List HostTask)
    (h : ∀ t ∈ ts, t.result = none) : firstFailure? ts = none := by
  induction ts with
  | nil => rfl
  | cons t ts ih =>
      have ht := h t (List.mem_cons_self t ts)
      simp only [firstFailure?, ht]
      exact ih (fun b hb => h b (List.mem_cons_of_mem t hb))

lemma le_maxDuration (ts : List HostTask) :
    ∀ t ∈ ts, t.duration ≤ maxDuration ts := by
  induction ts with
  | nil => simp
  | cons a ts ih =>
      intro t ht
      rcases List.mem_cons.mp ht with rfl | ht
      · exact Nat.le_max_left _ _
      · exact Nat.le_trans (ih t ht) (Nat.le_max_right _ _)

lemma head?_dropWhile_char (p : Char → Bool) :
    ∀ (l : List Char) (a : Char), (l.dropWhile p).head? = some a → p a = false := by
  intro l
  induction l with
  | nil => intro a h; simp [List.dropWhile] at h
  | cons c l ih =>
      intro a h
      rw [List.dropWhile_cons] at h
      by_cases hp : p c = true
      · rw [if_pos hp] at h
        exact ih a h
      · rw [if_neg hp] at h
        simp only [List.head?_cons, Option.some.injEq] at h
        rw [← h]
        exact Bool.eq_false_iff.mpr hp

lemma gimmeh_ne_raised_hostKeyErr (l : List Attempt) :
    ∀ s, gimmeh_ssh_client l ≠ EstablishResult.raised ConnectResult.hostKeyErr s := by
  induction l with
  | nil => intro s; simp [gimmeh_ssh_client]
  | cons a rest ih =>
      intro s
      cases hc : asyncssh_connect false a with
      | accepted => simp [gimmeh_ssh_client, hc]
      | timedOut =>
          simp only [gimmeh_ssh_client, hc]
          exact addSleep_ne_raised _ _ _ ih s
      | sockErr e =>
          simp only [gimmeh_ssh_client, hc]
          by_cases he : e = ECONNREFUSED
          · rw [if_pos he]
            exact addSleep_ne_raised _ _ _ ih s
          · rw [if_neg he]
            simp
      | authRejected => simp [gimmeh_ssh_client, hc]
      | otherErr => simp [gimmeh_ssh_client, hc]
      | hostKeyErr => exact absurd hc (asyncssh_connect_false_ne_hostKeyErr a)

lemma get_ssh_client_ne_raised_hostKeyErr (l : List Attempt)
    (hl : ∀ a ∈ l, a.hostKey ≠ HostKey.mismatching) :
    ∀ s, get_ssh_client l ≠ EstablishResult.raised ConnectResult.hostKeyErr s := by
  induction l with
  | nil => intro s; simp [get_ssh_client]
  | cons a rest ih =>
      intro s
      have ha := hl a (List.mem_cons_self a rest)
      have hrest : ∀ b ∈ rest, b.hostKey ≠ HostKey.mismatching :=
        fun b hb => hl b (List.mem_cons_of_mem a hb)
      cases hc : paramiko_connect true a with
      | accepted => simp [get_ssh_client, hc]
      | timedOut =>
          simp only [get_ssh_client, hc]
          exact addSleep_ne_raised _ _ _ (ih hrest) s
      | sockErr e =>
          simp only [get_ssh_client, hc]
          by_cases he : e = ECONNREFUSED
          · rw [if_pos he]
            exact addSleep_ne_raised _ _ _ (ih hrest) s
          · rw [if_neg he]
            simp
      | authRejected =>
          simp only [get_ssh_client, hc]
          exact addSleep_ne_raised _ _ _ (ih hrest) s
      | otherErr => simp [get_ssh_client, hc]
      | hostKeyErr => exact absurd hc (paramiko_connect_ne_hostKeyErr a ha)

lemma rstripNl_no_trailing (s : String) :
    (rstripNl s).data.getLast? ≠ some '\n' := by
  intro h
  unfold rstripNl at h
  rw [show (String.mk ((s.data.reverse.dropWhile
      (fun c => c == '\n')).reverse)).data =
    (s.data.reverse.dropWhile (fun c => c == '\n')).reverse from rfl] at h
  rw [List.getLast?_reverse] at h
  have := head?_dropWhile_char (fun c => c == '\n') s.data.reverse '\n' h
  simp at this

lemma rstripNl_append_newline (s : String) :
    rstripNl (s ++ "\n") = rstripNl s := by
  unfold rstripNl
  have hdata : (s ++ "\n").data = s.data ++ ['\n'] := String.data_append s "\n"
  rw [hdata, List.reverse_append]
  simp [List.dropWhile_cons]

lemma ssh_run_fst (req : CommandRequest) (r : RemoteExec) :
    (ssh_run req r).1 =
      if withinTimeout req.timeout r.openDuration then
        (if req.check && (r.exitStatus != 0) then
          RunResult.sshError (rstripNl r.rawStderr)
        else RunResult.ok (rstripNl r.rawStdout))
      else RunResult.timedOut := by
  unfold ssh_run
  split
  · split <;> rfl
  · rfl

lemma ssh_check_output_snd (r : RemoteExec) :
    (ssh_check_output r).2 =
      [Event.openSession, Event.readStdout, Event.readStderr,
        Event.queryExitStatus] := by
  unfold ssh_check_output
  split <;> rfl

lemma ssh_run_snd (req : CommandRequest) (r : RemoteExec) :
    (ssh_run req r).2 =
      if withinTimeout req.timeout r.openDuration then
        Event.openSession :: (inputEvents req.input ++
          [Event.readStdout, Event.readStderr, Event.queryExitStatus])
      else [] := by
  unfold ssh_run
  split
  · split <;> rfl
  · rfl

/-! ### Sample inputs used by witnesses -/

/-- Sample request with `check` set and no timeout. -/
def reqCheck : CommandRequest := ⟨"c", none, none, true⟩

/-- Sample request with `check` unset and no timeout. -/
def reqNoCheck : CommandRequest := ⟨"c", none, none, false⟩

/-- Sample request with an input payload. -/
def reqInput : CommandRequest := ⟨"cat", some "x", none, true⟩

/-- Sample remote execution failing with status 3. -/
def rexFail : RemoteExec := ⟨1, 1, "o", "e", 3⟩

/-- Sample remote execution echoing the payload of `reqInput`. -/
def rexEcho : RemoteExec := ⟨1, 1, "x", "", 0⟩

/-! ### Claim theorems -/

/-- Claim C2, counterexample: two executions run with `check=false` that
differ in their exit status (1 versus 0) and their stderr text produce
identical return values, so the value `execute` returns carries neither
the numeric exit status nor the captured stderr text; in particular the
real non-zero status of the first execution is absent from its result. -/
theorem C2_counterexample :
    (ssh_run ⟨"c", none, none, false⟩ ⟨1, 1, "hi", "", 1⟩).1 =
      (ssh_run ⟨"c", none, none, false⟩ ⟨1, 1, "hi", "boom", 0⟩).1 ∧
    (1 : Nat) ≠ 0 ∧ ("" : String) ≠ "boom" :=
  ⟨rfl, by decide, by decide⟩

/-- Claim C2, amended: `ssh_run` returns only the captured stdout text
with trailing newlines stripped; the captured stderr text and the exit
status are not part of the returned value (with `check=false` the result
is the stdout text whatever the exit status). -/
theorem C2_result_is_stdout_only (req : CommandRequest) (r : RemoteExec)
    (hok : withinTimeout req.timeout r.openDuration = true)
    (hc : req.check = false) :
    (ssh_run req r).1 = RunResult.ok (rstripNl r.rawStdout) := by
  simp [ssh_run, hok, hc]

/-- Claim C2, witness for the amended theorem at a concrete run with a
non-zero exit status. -/
theorem C2_witness :
    (ssh_run reqNoCheck ⟨1, 1, "out", "err", 7⟩).1 =
      RunResult.ok (rstripNl "out") :=
  C2_result_is_stdout_only reqNoCheck ⟨1, 1, "out", "err", 7⟩ rfl rfl

/-- Claim C3: provided the command session opens within the bound,
`ssh_run` raises `SSHError` carrying the normalized captured stderr text
exactly when `check` is set and the exit status is non-zero; with
`check` unset, or with a zero exit status, it returns normally; and
`ssh_check_output` raises exactly when the exit status is non-zero, its
message carrying the captured error-stream text (concatenated after the
stdout text, as the source documents). -/
theorem C3_check_raises_iff (req : CommandRequest) (r : RemoteExec)
    (hok : withinTimeout req.timeout r.openDuration = true) :
    ((ssh_run req r).1 = RunResult.sshError (rstripNl r.rawStderr) ↔
      req.check = true ∧ r.exitStatus ≠ 0) ∧
    (req.check = false →
      (ssh_run req r).1 = RunResult.ok (rstripNl r.rawStdout)) ∧
    (r.exitStatus = 0 →
      (ssh_run req r).1 = RunResult.ok (rstripNl r.rawStdout)) ∧
    ((ssh_check_output r).1 =
        RunResult.sshError (rstripNl r.rawStdout ++ rstripNl r.rawStderr) ↔
      r.exitStatus ≠ 0) := by
  by_cases hch : req.check = true <;>
    by_cases hex : r.exitStatus = 0 <;>
    simp [ssh_run, ssh_check_output, hok, hch, hex]

/-- Claim C3, witness at a concrete failing run executed with `check`
set. -/
theorem C3_witness :
    ((ssh_run reqCheck rexFail).1 =
        RunResult.sshError (rstripNl rexFail.rawStderr) ↔
      reqCheck.check = true ∧ rexFail.exitStatus ≠ 0) ∧
    (reqCheck.check = false →
      (ssh_run reqCheck rexFail).1 =
        RunResult.ok (rstripNl rexFail.rawStdout)) ∧
    (rexFail.exitStatus = 0 →
      (ssh_run reqCheck rexFail).1 =
        RunResult.ok (rstripNl rexFail.rawStdout)) ∧
    ((ssh_check_output rexFail).1 =
        RunResult.sshError
          (rstripNl rexFail.rawStdout ++ rstripNl rexFail.rawStderr) ↔
      rexFail.exitStatus ≠ 0) :=
  C3_check_raises_iff reqCheck rexFail rfl

/-- Claim C6, counterexample: with a 5-unit timeout, a session that
opens in 1 unit but whose command needs 100 units to complete is not
aborted — `ssh_run` returns a normal result and raises no timeout
error, so the bound does not cover completion of the command. -/
theorem C6_counterexample :
    (ssh_run ⟨"slow", none, some 5, true⟩ ⟨1, 100, "out", "", 0⟩).1 =
      RunResult.ok "out" ∧ ¬(100 ≤ 5) :=
  ⟨rfl, by decide⟩

/-- Claim C6, amended: the request timeout bounds only the opening of
the command session — a timeout error is raised exactly when the
session-open does not complete within the bound, the duration of the
command itself is never consulted, and when the timeout error is raised
no stream is read and no partial result is produced. -/
theorem C6_timeout_bounds_open_only :
    (∀ (req : CommandRequest) (r : RemoteExec),
      (ssh_run req r).1 = RunResult.timedOut ↔
        withinTimeout req.timeout r.openDuration = false) ∧
    (∀ (req : CommandRequest) (od rd rd2 : Nat) (so se : String) (es : Nat),
      ssh_run req ⟨od, rd, so, se, es⟩ = ssh_run req ⟨od, rd2, so, se, es⟩) ∧
    (∀ (req : CommandRequest) (r : RemoteExec),
      (ssh_run req r).1 = RunResult.timedOut → (ssh_run req r).2 = []) := by
  refine ⟨fun req r => ?_, fun req od rd rd2 so se es => rfl, fun req r h => ?_⟩
  · rw [ssh_run_fst]
    split_ifs with h1 h2 <;> simp_all
  · rw [ssh_run_fst] at h
    rw [ssh_run_snd]
    split_ifs at h ⊢ with h1 h2
    all_goals simp_all

/-- Claim C6, witness: a concrete run whose session-open exceeds the
bound raises the timeout error with an empty step trace. -/
theorem C6_witness :
    (ssh_run ⟨"c", none, some 3, true⟩ ⟨9, 1, "o", "e", 0⟩).2 = [] :=
  C6_timeout_bounds_open_only.2.2 ⟨"c", none, some 3, true⟩
    ⟨9, 1, "o", "e", 0⟩ (by decide)

/-- Claim C7: provided the session opens within the bound, the steps of
one command execution occur in strict order — the trace starts with the
session-open; when an input payload is present, the input write and the
end-of-input signal both precede any stream read; both stream reads
occur strictly before the exit-status query; the exit-status query is
performed exactly once, as the final step, so it never precedes the
drain; without an input payload no input step occurs; and the paramiko
executor performs the same open, read, read, query sequence. -/
theorem C7_exec_step_order (req : CommandRequest) (r : RemoteExec)
    (hok : withinTimeout req.timeout r.openDuration = true) :
    ((ssh_run req r).2).head? = some Event.openSession ∧
    ((ssh_run req r).2).getLast? = some Event.queryExitStatus ∧
    ((ssh_run req r).2).count Event.queryExitStatus = 1 ∧
    Event.readStdout ∈
      ((ssh_run req r).2).takeWhile (fun e => e != Event.queryExitStatus) ∧
    Event.readStderr ∈
      ((ssh_run req r).2).takeWhile (fun e => e != Event.queryExitStatus) ∧
    (∀ s0, req.input = some s0 →
      Event.writeInput ∈ ((ssh_run req r).2).takeWhile
        (fun e => e != Event.readStdout && e != Event.readStderr) ∧
      Event.writeEof ∈ ((ssh_run req r).2).takeWhile
        (fun e => e != Event.readStdout && e != Event.readStderr)) ∧
    (req.input = none →
      Event.writeInput ∉ (ssh_run req r).2 ∧
      Event.writeEof ∉ (ssh_run req r).2) ∧
    (ssh_check_output r).2 =
      [Event.openSession, Event.readStdout, Event.readStderr,
        Event.queryExitStatus] := by
  rw [ssh_run_snd, if_pos hok, ssh_check_output_snd]
  cases hi : req.input <;> simp [inputEvents]

/-- Claim C7, witness at a concrete execution with an input payload. -/
theorem C7_witness :
    ((ssh_run reqInput rexEcho).2).getLast? = some Event.queryExitStatus :=
  (C7_exec_step_order reqInput rexEcho rfl).2.1

/-- Claim C9: trailing newline characters are stripped from both
captured streams — appending a newline to a stream leaves the captured
text unchanged, and a captured text never ends in a newline character;
a successful run returns the normalized stdout text; a checked failing
run raises with the normalized stderr text; and a command that echoes
its input payload back on standard output returns exactly that payload
with trailing newlines stripped.  The paramiko executor normalizes the
same way. -/
theorem C9_trailing_newline_stripping (req : CommandRequest) (r : RemoteExec)
    (hok : withinTimeout req.timeout r.openDuration = true) :
    (∀ s, rstripNl (s ++ "\n") = rstripNl s) ∧
    (∀ s, (rstripNl s).data.getLast? ≠ some '\n') ∧
    (r.exitStatus = 0 →
      (ssh_run req r).1 = RunResult.ok (rstripNl r.rawStdout)) ∧
    (req.check = true → r.exitStatus ≠ 0 →
      (ssh_run req r).1 = RunResult.sshError (rstripNl r.rawStderr)) ∧
    (∀ s0, req.input = some s0 → r.rawStdout = s0 → r.exitStatus = 0 →
      (ssh_run req r).1 = RunResult.ok (rstripNl s0)) ∧
    (r.exitStatus = 0 →
      (ssh_check_output r).1 = RunResult.ok (rstripNl r.rawStdout)) := by
  refine ⟨rstripNl_append_newline, rstripNl_no_trailing, ?_, ?_, ?_, ?_⟩
  · intro hex
    simp [ssh_run, hok, hex]
  · intro hch hex
    simp [ssh_run, hok, hch, hex]
  · intro s0 _ hout hex
    simp [ssh_run, hok, hex, hout]
  · intro hex
    simp [ssh_check_output, hex]

/-- Claim C9, witness: the echo round trip at a concrete run whose
remote stdout equals the input payload of the request. -/
theorem C9_witness :
    (ssh_run reqInput rexEcho).1 = RunResult.ok (rstripNl "x") :=
  (C9_trailing_newline_stripping reqInput rexEcho rfl).2.2.2.2.1 "x" rfl rfl rfl

lemma addSleep_terminal (n s : Nat) (e : ConnectResult) :
    addSleep n (EstablishResult.connected s) =
        EstablishResult.connected (n + s) ∧
    addSleep n (EstablishResult.raised e s) =
        EstablishResult.raised e (n + s) ∧
    addSleep n (EstablishResult.pending s) =
        EstablishResult.pending (n + s) :=
  ⟨rfl, rfl, rfl⟩

lemma gimmeh_cons_fatal_sockErr (a : Attempt) (rest : List Attempt) (e : Nat)
    (ha : asyncssh_connect false a = ConnectResult.sockErr e)
    (he : ¬e = ECONNREFUSED) :
    gimmeh_ssh_client (a :: rest) =
      EstablishResult.raised (ConnectResult.sockErr e) 0 := by
  simp only [gimmeh_ssh_client, ha, if_neg he]

lemma gimmeh_cons_otherErr (a : Attempt) (rest : List Attempt)
    (ha : asyncssh_connect false a = ConnectResult.otherErr) :
    gimmeh_ssh_client (a :: rest) =
      EstablishResult.raised ConnectResult.otherErr 0 := by
  simp only [gimmeh_ssh_client, ha]

lemma gimmeh_cons_auth (a : Attempt) (rest : List Attempt)
    (ha : asyncssh_connect false a = ConnectResult.authRejected) :
    gimmeh_ssh_client (a :: rest) =
      EstablishResult.raised ConnectResult.authRejected 0 := by
  simp only [gimmeh_ssh_client, ha]

lemma get_ssh_client_cons_fatal_sockErr (a : Attempt) (rest : List Attempt)
    (e : Nat) (ha : paramiko_connect true a = ConnectResult.sockErr e)
    (he : ¬e = ECONNREFUSED) :
    get_ssh_client (a :: rest) =
      EstablishResult.raised (ConnectResult.sockErr e) 0 := by
  simp only [get_ssh_client, ha, if_neg he]

lemma get_ssh_client_cons_otherErr (a : Attempt) (rest : List Attempt)
    (ha : paramiko_connect true a = ConnectResult.otherErr) :
    get_ssh_client (a :: rest) =
      EstablishResult.raised ConnectResult.otherErr 0 := by
  simp only [get_ssh_client, ha]

/-- Claim C4: each connection attempt is bounded by the 3-unit connect
timeout and each transient attempt is followed by the fixed 5-unit
backoff sleep.  For an arbitrarily long run of attempts that are each
actively refused or timed out, neither establisher raises — the loop is
still retrying with one backoff sleep per attempt (no attempt cap) —
and it connects as soon as an attempt is accepted; by contrast a
`socket.error` whose errno is not `ECONNREFUSED`, or any error outside
the refused/timeout/auth classes, is raised immediately at the attempt
where it occurs, with no further retry. -/
theorem C4_establish_retry_policy :
    (connectTimeout = 3 ∧ backoffInterval = 5) ∧
    (∀ l : List Attempt, (∀ b ∈ l, gimmehTransient b) →
      gimmeh_ssh_client l =
        EstablishResult.pending (backoffInterval * l.length)) ∧
    (∀ (pre : List Attempt) (a : Attempt) (rest : List Attempt),
      (∀ b ∈ pre, gimmehTransient b) →
      asyncssh_connect false a = ConnectResult.accepted →
      gimmeh_ssh_client (pre ++ a :: rest) =
        EstablishResult.connected (backoffInterval * pre.length)) ∧
    (∀ (pre : List Attempt) (a : Attempt) (rest : List Attempt) (e : Nat),
      (∀ b ∈ pre, gimmehTransient b) →
      asyncssh_connect false a = ConnectResult.sockErr e →
      ¬e = ECONNREFUSED →
      gimmeh_ssh_client (pre ++ a :: rest) =
        EstablishResult.raised (ConnectResult.sockErr e)
          (backoffInterval * pre.length)) ∧
    (∀ (pre : List Attempt) (a : Attempt) (rest : List Attempt),
      (∀ b ∈ pre, gimmehTransient b) →
      asyncssh_connect false a = ConnectResult.otherErr →
      gimmeh_ssh_client (pre ++ a :: rest) =
        EstablishResult.raised ConnectResult.otherErr
          (backoffInterval * pre.length)) ∧
    (∀ l : List Attempt, (∀ b ∈ l, paramikoRefused b) →
      get_ssh_client l =
        EstablishResult.pending (backoffInterval * l.length)) ∧
    (∀ (pre : List Attempt) (a : Attempt) (rest : List Attempt),
      (∀ b ∈ pre, paramikoRefused b) →
      paramiko_connect true a = ConnectResult.accepted →
      get_ssh_client (pre ++ a :: rest) =
        EstablishResult.connected (backoffInterval * pre.length)) ∧
    (∀ (pre : List Attempt) (a : Attempt) (rest : List Attempt) (e : Nat),
      (∀ b ∈ pre, paramikoRefused b) →
      paramiko_connect true a = ConnectResult.sockErr e →
      ¬e = ECONNREFUSED →
      get_ssh_client (pre ++ a :: rest) =
        EstablishResult.raised (ConnectResult.sockErr e)
          (backoffInterval * pre.length)) := by
  refine ⟨⟨rfl, rfl⟩, ?_, ?_, ?_, ?_, ?_, ?_, ?_⟩
  · intro l h
    have := gimmeh_append_transient l [] h
    rw [List.append_nil] at this
    rw [this]
    simp [gimmeh_ssh_client, addSleep]
  · intro pre a rest h ha
    rw [gimmeh_append_transient pre (a :: rest) h,
      gimmeh_cons_accepted a rest ha]
    simp [addSleep]
  · intro pre a rest e h ha he
    rw [gimmeh_append_transient pre (a :: rest) h,
      gimmeh_cons_fatal_sockErr a rest e ha he]
    simp [addSleep]
  · intro pre a rest h ha
    rw [gimmeh_append_transient pre (a :: rest) h,
      gimmeh_cons_otherErr a rest ha]
    simp [addSleep]
  · intro l h
    have := get_ssh_client_append_transient l []
      (fun b hb => (h b hb).elim Or.inl (fun h2 => Or.inr (Or.inl h2)))
    rw [List.append_nil] at this
    rw [this]
    simp [get_ssh_client, addSleep]
  · intro pre a rest h ha
    rw [get_ssh_client_append_transient pre (a :: rest)
        (fun b hb => (h b hb).elim Or.inl (fun h2 => Or.inr (Or.inl h2))),
      get_ssh_client_cons_accepted a rest ha]
    simp [addSleep]
  · intro pre a rest e h ha he
    rw [get_ssh_client_append_transient pre (a :: rest)
        (fun b hb => (h b hb).elim Or.inl (fun h2 => Or.inr (Or.inl h2))),
      get_ssh_client_cons_fatal_sockErr a rest e ha he]
    simp [addSleep]

/-- Claim C4, witness: two transient attempts (one timed out, one
refused) followed by an accepted attempt connect after two backoff
sleeps; a refused attempt followed by a connection reset raises at once
with a single backoff slept; and the paramiko establisher connects
after one refused attempt. -/
theorem C4_witness :
    gimmeh_ssh_client
      [⟨9, HostKey.matching, ConnOutcome.accepted⟩,
       ⟨1, HostKey.matching, ConnOutcome.sockErr 111⟩,
       ⟨1, HostKey.matching, ConnOutcome.accepted⟩] =
      EstablishResult.connected (backoffInterval * 2) ∧
    gimmeh_ssh_client
      [⟨1, HostKey.matching, ConnOutcome.sockErr 111⟩,
       ⟨1, HostKey.matching, ConnOutcome.sockErr 104⟩] =
      EstablishResult.raised (ConnectResult.sockErr 104)
        (backoffInterval * 1) ∧
    get_ssh_client
      [⟨1, HostKey.matching, ConnOutcome.sockErr 111⟩,
       ⟨1, HostKey.missing, ConnOutcome.accepted⟩] =
      EstablishResult.connected (backoffInterval * 1) :=
  ⟨C4_establish_retry_policy.2.2.1
      [⟨9, HostKey.matching, ConnOutcome.accepted⟩,
       ⟨1, HostKey.matching, ConnOutcome.sockErr 111⟩]
      ⟨1, HostKey.matching, ConnOutcome.accepted⟩ [] (by decide) (by decide),
   C4_establish_retry_policy.2.2.2.1
      [⟨1, HostKey.matching, ConnOutcome.sockErr 111⟩]
      ⟨1, HostKey.matching, ConnOutcome.sockErr 104⟩ [] 104
      (by decide) (by decide) (by decide),
   C4_establish_retry_policy.2.2.2.2.2.2.1
      [⟨1, HostKey.matching, ConnOutcome.sockErr 111⟩]
      ⟨1, HostKey.missing, ConnOutcome.accepted⟩ [] (by decide) (by decide)⟩

/-- Claim C5, counterexample: the establisher used by the fleet path
(`gimmeh_ssh_client`, the asyncssh loop) catches only `socket.error` and
the attempt timeout, so a single authentication rejection on a reachable
service is raised immediately — it is not backed off and retried —
refuting the claim that auth rejection is treated as transient on the
fleet path as well. -/
theorem C5_counterexample :
    gimmeh_ssh_client [⟨1, HostKey.matching, ConnOutcome.authRejected⟩] =
      EstablishResult.raised ConnectResult.authRejected 0 := by decide

/-- Claim C5, amended: only the synchronous single-host establisher
(`get_ssh_client`, the paramiko loop) treats an authentication rejection
as transient — it sleeps the backoff and retries, without a cap, and
connects once an attempt is accepted; the fleet-path establisher
(`gimmeh_ssh_client`) does not catch the rejection and raises it
immediately on the attempt where it occurs. -/
theorem C5_auth_rejection_paths :
    (∀ (pre : List Attempt) (a : Attempt) (rest : List Attempt),
      (∀ b ∈ pre, paramiko_connect true b = ConnectResult.authRejected) →
      paramiko_connect true a = ConnectResult.accepted →
      get_ssh_client (pre ++ a :: rest) =
        EstablishResult.connected (backoffInterval * pre.length)) ∧
    (∀ l : List Attempt,
      (∀ b ∈ l, paramiko_connect true b = ConnectResult.authRejected) →
      get_ssh_client l =
        EstablishResult.pending (backoffInterval * l.length)) ∧
    (∀ (a : Attempt) (rest : List Attempt),
      asyncssh_connect false a = ConnectResult.authRejected →
      gimmeh_ssh_client (a :: rest) =
        EstablishResult.raised ConnectResult.authRejected 0) := by
  refine ⟨?_, ?_, ?_⟩
  · intro pre a rest h ha
    rw [get_ssh_client_append_transient pre (a :: rest)
        (fun b hb => Or.inr (Or.inr (h b hb))),
      get_ssh_client_cons_accepted a rest ha]
    simp [addSleep]
  · intro l h
    have := get_ssh_client_append_transient l []
      (fun b hb => Or.inr (Or.inr (h b hb)))
    rw [List.append_nil] at this
    rw [this]
    simp [get_ssh_client, addSleep]
  · exact gimmeh_cons_auth

/-- Claim C5, witness: the paramiko establisher connects after one
backed-off authentication rejection; the asyncssh establisher raises
an authentication rejection at once. -/
theorem C5_witness :
    get_ssh_client
      [⟨1, HostKey.matching, ConnOutcome.authRejected⟩,
       ⟨1, HostKey.matching, ConnOutcome.accepted⟩] =
      EstablishResult.connected (backoffInterval * 1) ∧
    gimmeh_ssh_client [⟨2, HostKey.matching, ConnOutcome.authRejected⟩] =
      EstablishResult.raised ConnectResult.authRejected 0 :=
  ⟨C5_auth_rejection_paths.1
      [⟨1, HostKey.matching, ConnOutcome.authRejected⟩]
      ⟨1, HostKey.matching, ConnOutcome.accepted⟩ [] (by decide) (by decide),
   C5_auth_rejection_paths.2.2
      ⟨2, HostKey.matching, ConnOutcome.authRejected⟩ [] (by decide)⟩

/-- Claim C10, counterexample: in the synchronous establisher a server
host key that mismatches a key already in the loaded known-host store
raises `BadHostKeyException`, which none of the except clauses catch —
a host-key mismatch is a fatal outcome of establish, refuting the claim
that it never is. -/
theorem C10_counterexample :
    get_ssh_client [⟨1, HostKey.mismatching, ConnOutcome.accepted⟩] =
      EstablishResult.raised ConnectResult.hostKeyErr 0 := by decide

/-- Claim C10, amended: an unknown (missing) host key never causes
establish to fail — the asyncssh establisher disables host-key checking
entirely (`known_hosts=None`) and can never raise a host-key error for
any attempt sequence, and the paramiko establisher auto-accepts missing
keys, so it raises no host-key error on any sequence free of
mismatching keys; but a key that mismatches a stored key is fatal to the
paramiko establisher at the attempt where it occurs. -/
theorem C10_host_key_policy :
    (∀ (l : List Attempt) (s : Nat),
      gimmeh_ssh_client l ≠
        EstablishResult.raised ConnectResult.hostKeyErr s) ∧
    (∀ (l : List Attempt) (s : Nat),
      (∀ a ∈ l, a.hostKey ≠ HostKey.mismatching) →
      get_ssh_client l ≠
        EstablishResult.raised ConnectResult.hostKeyErr s) ∧
    (∀ (a : Attempt) (rest : List Attempt),
      a.duration ≤ connectTimeout → a.hostKey = HostKey.mismatching →
      get_ssh_client (a :: rest) =
        EstablishResult.raised ConnectResult.hostKeyErr 0) := by
  refine ⟨?_, ?_, ?_⟩
  · intro l s
    exact gimmeh_ne_raised_hostKeyErr l s
  · intro l s hl
    exact get_ssh_client_ne_raised_hostKeyErr l hl s
  · intro a rest hd hk
    have hpc : paramiko_connect true a = ConnectResult.hostKeyErr := by
      unfold paramiko_connect
      rw [if_neg (Nat.not_lt.mpr hd), hk]
    simp only [get_ssh_client, hpc]

/-- Claim C10, witness: the asyncssh establisher does not fail on a
mismatching key; the paramiko establisher does not fail on a missing
key; the paramiko establisher does fail on a mismatching key. -/
theorem C10_witness :
    gimmeh_ssh_client [⟨1, HostKey.mismatching, ConnOutcome.accepted⟩] ≠
      EstablishResult.raised ConnectResult.hostKeyErr 0 ∧
    get_ssh_client [⟨1, HostKey.missing, ConnOutcome.accepted⟩] ≠
      EstablishResult.raised ConnectResult.hostKeyErr 0 ∧
    get_ssh_client [⟨2, HostKey.mismatching, ConnOutcome.accepted⟩] =
      EstablishResult.raised ConnectResult.hostKeyErr 0 :=
  ⟨C10_host_key_policy.1 [⟨1, HostKey.mismatching, ConnOutcome.accepted⟩] 0,
   C10_host_key_policy.2.1 [⟨1, HostKey.missing, ConnOutcome.accepted⟩] 0
     (by decide),
   C10_host_key_policy.2.2 ⟨2, HostKey.mismatching, ConnOutcome.accepted⟩ []
     (by decide) rfl⟩

/-- Claim C1, counterexample: a fleet run whose only per-host failure is
a timeout error raises that timeout error unchanged — no aggregated
`NodeError` is raised for it, because the dispatcher's only handler is
`except SSHError` — refuting the claim that a per-host `TimeoutError`
(or `ConnectionError`) is wrapped into the aggregated fleet error. -/
theorem C1_counterexample :
    run_asynchronously [⟨1, some TaskError.timeoutError⟩] =
      DispatchResult.uncaught TaskError.timeoutError ∧
    ¬∃ m, run_asynchronously [⟨1, some TaskError.timeoutError⟩] =
      DispatchResult.nodeError m := by
  constructor
  · rfl
  · rintro ⟨m, hm⟩
    simp [run_asynchronously, firstFailure?] at hm

/-- Claim C1, amended: when no per-host operation fails the dispatcher
raises nothing; when the first observed per-host failure is an
`SSHError` the dispatcher raises exactly one aggregated `NodeError`
carrying that error's message; but a first failure that is a timeout
error or a connection error propagates unchanged, not wrapped into the
aggregated fleet error. -/
theorem C1_fleet_error_wrapping :
    (∀ ts : List HostTask, (∀ t ∈ ts, t.result = none) →
      run_asynchronously ts = DispatchResult.ok) ∧
    (∀ (ts : List HostTask) (d : Nat) (m : String),
      firstFailure? ts = some (d, TaskError.sshError m) →
      run_asynchronously ts = DispatchResult.nodeError m) ∧
    (∀ (ts : List HostTask) (d : Nat),
      firstFailure? ts = some (d, TaskError.timeoutError) →
      run_asynchronously ts =
        DispatchResult.uncaught TaskError.timeoutError) ∧
    (∀ (ts : List HostTask) (d e : Nat),
      firstFailure? ts = some (d, TaskError.connError e) →
      run_asynchronously ts =
        DispatchResult.uncaught (TaskError.connError e)) := by
  refine ⟨?_, ?_, ?_, ?_⟩
  · intro ts h
    simp [run_asynchronously, firstFailure?_eq_none ts h]
  · intro ts d m h
    simp [run_asynchronously, h]
  · intro ts d h
    simp [run_asynchronously, h]
  · intro ts d e h
    simp [run_asynchronously, h]

/-- Claim C1, witness: an all-success fleet raises nothing; a fleet
whose earliest failure is an `SSHError` raises the aggregated error with
that message; a fleet whose failure is a connection error propagates it
unchanged. -/
theorem C1_witness :
    run_asynchronously [⟨1, none⟩, ⟨2, none⟩] = DispatchResult.ok ∧
    run_asynchronously [⟨4, none⟩, ⟨2, some (TaskError.sshError "boom")⟩] =
      DispatchResult.nodeError "boom" ∧
    run_asynchronously [⟨1, some (TaskError.connError 104)⟩] =
      DispatchResult.uncaught (TaskError.connError 104) :=
  ⟨C1_fleet_error_wrapping.1 [⟨1, none⟩, ⟨2, none⟩] (by decide),
   C1_fleet_error_wrapping.2.1
     [⟨4, none⟩, ⟨2, some (TaskError.sshError "boom")⟩] 2 "boom" (by decide),
   C1_fleet_error_wrapping.2.2.2
     [⟨1, some (TaskError.connError 104)⟩] 1 104 (by decide)⟩

/-- Claim C8, counterexample: with one task that fails after 1 unit and
one that needs 5 units to succeed, the dispatcher raises the aggregated
error at time 1 while the 5-unit operation is still running — `gather`
propagates the first exception immediately and the loop is closed with
the task pending — refuting the claim that every launched operation has
reached a terminal state whenever `run_on_fleet` completes. -/
theorem C8_counterexample :
    run_asynchronously [⟨5, none⟩, ⟨1, some (TaskError.sshError "boom")⟩] =
      DispatchResult.nodeError "boom" ∧
    pendingAfter [⟨5, none⟩, ⟨1, some (TaskError.sshError "boom")⟩] =
      [⟨5, none⟩] :=
  ⟨rfl, by decide⟩

/-- Claim C8, amended: the dispatcher waits for all launched operations
only on an all-success run — then it returns normally with no operation
left running; when some operation fails, the dispatcher raises at the
first observed failure time and every operation whose duration extends
past that time is left running (abandoned when the loop is closed). -/
theorem C8_wait_for_all_only_on_success :
    (∀ ts : List HostTask, (∀ t ∈ ts, t.result = none) →
      run_asynchronously ts = DispatchResult.ok ∧ pendingAfter ts = []) ∧
    (∀ (ts : List HostTask) (d : Nat) (e : TaskError),
      firstFailure? ts = some (d, e) →
      ∀ t ∈ ts, d < t.duration → t ∈ pendingAfter ts) := by
  constructor
  · intro ts h
    refine ⟨by simp [run_asynchronously, firstFailure?_eq_none ts h], ?_⟩
    unfold pendingAfter
    apply List.filter_eq_nil_iff.mpr
    intro t ht
    simp only [finishTime, firstFailure?_eq_none ts h, decide_eq_true_eq]
    exact Nat.not_lt.mpr (le_maxDuration ts t ht)
  · intro ts d e hff t ht hdur
    unfold pendingAfter
    apply List.mem_filter.mpr
    refine ⟨ht, ?_⟩
    simp only [finishTime, hff, decide_eq_true_eq]
    exact hdur

/-- Claim C8, witness: an all-success fleet leaves nothing pending; a
fleet failing at time 2 leaves its 7-unit operation pending. -/
theorem C8_witness :
    (run_asynchronously [⟨1, none⟩, ⟨3, none⟩] = DispatchResult.ok ∧
      pendingAfter [⟨1, none⟩, ⟨3, none⟩] = []) ∧
    (⟨7, none⟩ : HostTask) ∈
      pendingAfter [⟨7, none⟩, ⟨2, some (TaskError.sshError "x")⟩] :=
  ⟨C8_wait_for_all_only_on_success.1 [⟨1, none⟩, ⟨3, none⟩] (by decide),
   C8_wait_for_all_only_on_success.2
     [⟨7, none⟩, ⟨2, some (TaskError.sshError "x")⟩] 2
     (TaskError.sshError "x") (by decide) ⟨7, none⟩ (by decide) (by decide)⟩

end Flintrock
